import Mathlib

/-!
Shallow embedding of the gitlab-mcp action-routed dispatcher core
(merge-request management, deploy-token management, git-flow finish
handlers, thin file/commit readers and the lazily initialized client
handle), together with proofs settling the specification claims.

Modelling conventions:
* The remote Backend Client is an oracle record `Backend` whose methods
  return `Except String result`; the `String` is the error message the
  Go error would render via the `%v` verb.
* Every handler returns a `HandlerOut` carrying the mcp tool result
  (text plus error flag), the Go-level error value (always `none` on the
  modelled paths, mirroring `return ..., nil`), and the ordered list of
  Backend Client calls the handler issued (the call-count spy of the
  specification).
* `time.Time` values inside domain results are modelled as the string
  the Go code renders them to with `Format("2006-01-02 15:04:05")`;
  pointer-typed optional timestamps become `Option String`.
* `time.Now()` is passed to `listCommits` explicitly as the already
  formatted current date, making the handler a pure function.
-/

namespace GitlabMcp

/-- Domain result for one merge request, with exactly the fields the
repository's formatters read (times pre-rendered, see module header). -/
structure MergeRequest where
  iid : Int
  title : String
  state : String
  sourceBranch : String
  targetBranch : String
  authorUsername : String
  webURL : String
  createdAt : String
  updatedAt : String
  mergedAt : Option String
  closedAt : Option String
  description : String
  mergeCommitSHA : String
  changesCount : String
  diffBaseSha : String
  diffStartSha : String
  diffHeadSha : String
  deriving Repr, DecidableEq

/-- One changed file of a merge request diff. -/
structure FileChange where
  newPath : String
  oldPath : String
  newFile : Bool
  deletedFile : Bool
  renamedFile : Bool
  diff : String
  deriving Repr, DecidableEq

/-- Domain result for one pipeline of a merge request. -/
structure PipelineInfo where
  id : Int
  status : String
  ref : String
  sha : String
  createdAt : Option String
  updatedAt : Option String
  webURL : String
  deriving Repr, DecidableEq

/-- Domain result for one deploy token. -/
structure DeployToken where
  id : Int
  name : String
  username : String
  revoked : Bool
  expired : Bool
  scopes : List String
  expiresAt : Option String
  token : String
  deriving Repr, DecidableEq

/-- Domain result for one commit, restricted to the fields `listCommits`
renders. -/
structure CommitInfo where
  id : String
  authorName : String
  committedDate : String
  title : String
  lastPipelineStatus : Option (String × String × String × String)
  deriving Repr, DecidableEq

/-- Options passed to the CreateMergeRequest backend call. -/
structure CreateMROpts where
  title : String
  description : Option String
  sourceBranch : String
  targetBranch : String
  deriving Repr, DecidableEq

/-- Options passed to the UpdateMergeRequest backend call; `none` models
a nil pointer field (the Labels field is left out of the options by the
source, which keeps its assignment commented out as a TODO). -/
structure UpdateMROpts where
  title : Option String
  description : Option String
  targetBranch : Option String
  stateEvent : Option String
  assigneeID : Option Int
  milestoneID : Option Int
  removeSourceBranch : Option Bool
  squash : Option Bool
  discussionLocked : Option Bool
  deriving Repr, DecidableEq

/-- Options passed to the AcceptMergeRequest backend call. -/
structure AcceptMROpts where
  mergeCommitMessage : Option String
  squashCommitMessage : Option String
  squash : Option Bool
  shouldRemoveSourceBranch : Option Bool
  mergeWhenPipelineSucceeds : Option Bool
  deriving Repr, DecidableEq

/-- Options passed to the create deploy token backend calls. -/
structure CreateDeployTokenOpts where
  name : String
  username : Option String
  expiresAt : Option String
  scopes : List String
  deriving Repr, DecidableEq

/-- One observable Backend Client invocation, recorded in order by the
handlers (the specification's call-count spy). -/
inductive BackendCall where
  | listProjectMergeRequests (projectPath state : String) (perPage : Nat)
  | getMergeRequest (projectPath : String) (iid : Int)
  | listMergeRequestDiffs (projectPath : String) (iid : Int)
  | createMergeRequest (projectPath : String) (opts : CreateMROpts)
  | updateMergeRequest (projectPath : String) (iid : Int) (opts : UpdateMROpts)
  | acceptMergeRequest (projectPath : String) (iid : Int) (opts : AcceptMROpts)
  | rebaseMergeRequest (projectPath : String) (iid : Int) (skipCI : Bool)
  | getMergeRequestChanges (projectPath : String) (iid : Int) (accessRawDiffs unidiff : Bool)
  | listMergeRequestPipelines (projectPath : String) (iid : Int)
  | listProjectDeployTokens (projectPath : String)
  | listGroupDeployTokens (groupID : String)
  | getProjectDeployToken (projectPath : String) (id : Int)
  | getGroupDeployToken (groupID : String) (id : Int)
  | createProjectDeployToken (projectPath : String) (opts : CreateDeployTokenOpts)
  | createGroupDeployToken (groupID : String) (opts : CreateDeployTokenOpts)
  | deleteProjectDeployToken (projectPath : String) (id : Int)
  | deleteGroupDeployToken (groupID : String) (id : Int)
  | getBranch (projectPath branch : String)
  | deleteBranch (projectPath branch : String)
  | getRawFile (projectPath filePath ref : String)
  | listCommits (projectPath sinceDate untilDate ref : String)
  deriving Repr, DecidableEq

/-- Oracle for the Backend Client collaborator: each method returns
either a domain result or the message of the Go error. -/
structure Backend where
  listProjectMergeRequests : String → String → Nat → Except String (List MergeRequest)
  getMergeRequest : String → Int → Except String MergeRequest
  listMergeRequestDiffs : String → Int → Except String (List FileChange)
  createMergeRequest : String → CreateMROpts → Except String MergeRequest
  updateMergeRequest : String → Int → UpdateMROpts → Except String MergeRequest
  acceptMergeRequest : String → Int → AcceptMROpts → Except String MergeRequest
  rebaseMergeRequest : String → Int → Bool → Except String Unit
  getMergeRequestChanges : String → Int → Bool → Bool → Except String MergeRequest
  listMergeRequestPipelines : String → Int → Except String (List PipelineInfo)
  listProjectDeployTokens : String → Except String (List DeployToken)
  listGroupDeployTokens : String → Except String (List DeployToken)
  getProjectDeployToken : String → Int → Except String DeployToken
  getGroupDeployToken : String → Int → Except String DeployToken
  createProjectDeployToken : String → CreateDeployTokenOpts → Except String DeployToken
  createGroupDeployToken : String → CreateDeployTokenOpts → Except String DeployToken
  deleteProjectDeployToken : String → Int → Except String Unit
  deleteGroupDeployToken : String → Int → Except String Unit
  getBranch : String → String → Except String Unit
  deleteBranch : String → String → Except String Unit
  getRawFile : String → String → String → Except String String
  listCommits : String → String → String → String → Except String (List CommitInfo)

/-- Outcome of one handler invocation: the tool result text, its error
flag (`NewToolResultError` versus `NewToolResultText`), the Go-level
error returned alongside it, and the ordered Backend Client call trace. -/
structure HandlerOut where
  text : String
  isError : Bool
  goErr : Option String
  calls : List BackendCall
  deriving Repr, DecidableEq

/-- Models `return mcp.NewToolResultError(msg), nil` after the given calls. -/
def toolResultError (msg : String) (calls : List BackendCall) : HandlerOut :=
  { text := msg, isError := true, goErr := none, calls := calls }

/-- Models `return mcp.NewToolResultText(s), nil` after the given calls. -/
def toolResultText (s : String) (calls : List BackendCall) : HandlerOut :=
  { text := s, isError := false, goErr := none, calls := calls }

/-! Model of Go `strconv.Atoi`: an optional sign followed by at least
one decimal digit, with the value required to fit a 64-bit int. -/

/-- Numeric value of a digit list (most significant first). -/
def digitsVal : List Char → Nat
  | [] => 0
  | c :: cs => (c.toNat - '0'.toNat) * 10 ^ cs.length + digitsVal cs

/-- Digit part of an integer literal, with any leading sign removed. -/
def atoiDigits (s : String) : List Char :=
  match s.data with
  | c :: cs => if c = '-' ∨ c = '+' then cs else c :: cs
  | [] => []

/-- Syntactic well-formedness of the input to `strconv.Atoi`. -/
def atoiSyntaxOk (s : String) : Bool :=
  match s.data with
  | [] => false
  | c :: cs =>
    if c = '-' ∨ c = '+' then !cs.isEmpty && cs.all Char.isDigit
    else (c :: cs).all Char.isDigit

/-- Signed value denoted by a well-formed integer literal. -/
def atoiVal (s : String) : Int :=
  match s.data with
  | '-' :: _ => -(digitsVal (atoiDigits s) : Int)
  | _ => (digitsVal (atoiDigits s) : Int)

/-- Model of Go `strconv.Atoi` on a 64-bit platform: `none` models a
non-nil error. -/
def goAtoi (s : String) : Option Int :=
  if atoiSyntaxOk s
      ∧ -9223372036854775808 ≤ atoiVal s ∧ atoiVal s ≤ 9223372036854775807 then
    some (atoiVal s)
  else
    none

/-- Message of the error value `strconv.Atoi` returns on failure. -/
def goAtoiErr (s : String) : String :=
  if atoiSyntaxOk s then
    "strconv.Atoi: parsing \"" ++ s ++ "\": value out of range"
  else
    "strconv.Atoi: parsing \"" ++ s ++ "\": invalid syntax"

/-! Argument structures of the merge-request tool family
(src/tools/merge_requests.go). -/

/-- Arguments of the legacy list handler the dispatcher delegates to. -/
structure ListMergeRequestsArgs where
  projectPath : String
  state : String
  deriving Repr, DecidableEq, Inhabited

/-- Arguments of the get handler. -/
structure GetMergeRequestArgs where
  projectPath : String
  mrIID : String
  deriving Repr, DecidableEq, Inhabited

/-- Arguments of the create handler. -/
structure CreateMergeRequestArgs where
  projectPath : String
  sourceBranch : String
  targetBranch : String
  title : String
  description : String
  deriving Repr, DecidableEq, Inhabited

/-- Arguments of the update handler. -/
structure UpdateMergeRequestArgs where
  projectPath : String
  mrIID : String
  title : String
  description : String
  targetBranch : String
  stateEvent : String
  assigneeID : Int
  milestoneID : Int
  labels : String
  removeSourceBranch : Bool
  squash : Bool
  discussionLocked : Bool
  deriving Repr, DecidableEq, Inhabited

/-- Arguments of the accept handler. -/
structure AcceptMergeRequestArgs where
  projectPath : String
  mrIID : String
  mergeCommitMessage : String
  squashCommitMessage : String
  squash : Bool
  shouldRemoveSourceBranch : Bool
  mergeWhenPipelineSucceeds : Bool
  deriving Repr, DecidableEq, Inhabited

/-- Arguments of the rebase handler. -/
structure RebaseMRArgs where
  projectPath : String
  mrIID : String
  skipCI : Bool
  deriving Repr, DecidableEq, Inhabited

/-- Arguments of the changes handler. -/
structure GetMRChangesArgs where
  projectPath : String
  mrIID : String
  accessRawDiffs : Bool
  unidiff : Bool
  deriving Repr, DecidableEq, Inhabited

/-- Arguments of the merge-request pipelines list handler. -/
structure GetMRPipelinesArgs where
  projectPath : String
  mrIID : String
  deriving Repr, DecidableEq, Inhabited

/-- ListOptions block of the consolidated MR management arguments. -/
structure MRListOptions where
  state : String
  deriving Repr, DecidableEq, Inhabited

/-- CreateOptions block of the consolidated MR management arguments. -/
structure MRCreateOptions where
  sourceBranch : String
  targetBranch : String
  title : String
  description : String
  deriving Repr, DecidableEq, Inhabited

/-- UpdateOptions block of the consolidated MR management arguments. -/
structure MRUpdateOptions where
  title : String
  description : String
  targetBranch : String
  stateEvent : String
  assigneeID : Int
  milestoneID : Int
  labels : String
  removeSourceBranch : Bool
  squash : Bool
  discussionLocked : Bool
  deriving Repr, DecidableEq, Inhabited

/-- AcceptOptions block of the consolidated MR management arguments. -/
structure MRAcceptOptions where
  mergeCommitMessage : String
  squashCommitMessage : String
  squash : Bool
  shouldRemoveSourceBranch : Bool
  mergeWhenPipelineSucceeds : Bool
  deriving Repr, DecidableEq, Inhabited

/-- RebaseOptions block of the consolidated MR management arguments. -/
structure MRRebaseOptions where
  skipCI : Bool
  deriving Repr, DecidableEq, Inhabited

/-- ChangesOptions block of the consolidated MR management arguments. -/
structure MRChangesOptions where
  accessRawDiffs : Bool
  unidiff : Bool
  deriving Repr, DecidableEq, Inhabited

/-- Arguments of the consolidated manage_merge_request tool. -/
structure MergeRequestManagementArgs where
  action : String
  projectPath : String
  mrIID : String
  listOptions : MRListOptions
  createOptions : MRCreateOptions
  updateOptions : MRUpdateOptions
  acceptOptions : MRAcceptOptions
  rebaseOptions : MRRebaseOptions
  changesOptions : MRChangesOptions
  deriving Repr, DecidableEq, Inhabited

/-! Merge-request handlers, translated statement by statement from
src/tools/merge_requests.go. -/

/-- Loop body of `listMergeRequestsHandler` rendering one merge request. -/
def fmtListedMR (mr : MergeRequest) : String :=
  "MR #" ++ toString mr.iid ++ ": " ++ mr.title ++ "\nState: " ++ mr.state
    ++ "\nAuthor: " ++ mr.authorUsername ++ "\nURL: " ++ mr.webURL
    ++ "\nCreated: " ++ mr.createdAt ++ "\n"
  ++ (if mr.sourceBranch ≠ "" then "Source Branch: " ++ mr.sourceBranch ++ "\n" else "")
  ++ (if mr.targetBranch ≠ "" then "Target Branch: " ++ mr.targetBranch ++ "\n" else "")
  ++ (match mr.mergedAt with
      | some t => "Merged At: " ++ t ++ "\n"
      | none => "")
  ++ (match mr.closedAt with
      | some t => "Closed At: " ++ t ++ "\n"
      | none => "")
  ++ (if mr.description ≠ "" then "Description: " ++ mr.description ++ "\n" else "")
  ++ "\n"

/-- Handler for the list action (`listMergeRequestsHandler`). -/
def listMergeRequestsHandler (be : Backend) (args : ListMergeRequestsArgs) : HandlerOut :=
  let state := if args.state = "" then "all" else args.state
  let call := BackendCall.listProjectMergeRequests args.projectPath state 100
  match be.listProjectMergeRequests args.projectPath state 100 with
  | .error e => toolResultError ("failed to list merge requests: " ++ e) [call]
  | .ok mrs => toolResultText (String.join (mrs.map fmtListedMR)) [call]

/-- Rendering of one changed file in `getMergeRequestHandler`. -/
def fmtFileChange (change : FileChange) : String :=
  "File: " ++ change.newPath ++ "\n"
  ++ (if change.newFile then "Status: Added\n"
      else if change.deletedFile then "Status: Deleted\n"
      else if change.renamedFile then "Status: Renamed from " ++ change.oldPath ++ "\n"
      else "Status: Modified\n")
  ++ (if change.diff ≠ "" then "Diff:\n```diff\n" ++ change.diff ++ "\n```\n" else "")
  ++ "\n"

/-- Handler for the get action (`getMergeRequestHandler`), a two-read
composite (details plus diffs). -/
def getMergeRequestHandler (be : Backend) (args : GetMergeRequestArgs) : HandlerOut :=
  match goAtoi args.mrIID with
  | none => toolResultError ("invalid mr_iid: " ++ goAtoiErr args.mrIID) []
  | some mrIID =>
    let c1 := BackendCall.getMergeRequest args.projectPath mrIID
    match be.getMergeRequest args.projectPath mrIID with
    | .error e => toolResultError ("failed to get merge request: " ++ e) [c1]
    | .ok mr =>
      let c2 := BackendCall.listMergeRequestDiffs args.projectPath mrIID
      match be.listMergeRequestDiffs args.projectPath mrIID with
      | .error e => toolResultError ("failed to get merge request changes: " ++ e) [c1, c2]
      | .ok changes =>
        toolResultText
          ("Merge Request #" ++ toString mr.iid ++ ": " ++ mr.title ++ "\n"
            ++ "Author: " ++ mr.authorUsername ++ "\n"
            ++ "Source Branch: " ++ mr.sourceBranch ++ "\n"
            ++ "Target Branch: " ++ mr.targetBranch ++ "\n"
            ++ "State: " ++ mr.state ++ "\n"
            ++ "Created: " ++ mr.createdAt ++ "\n"
            ++ "Base SHA: " ++ mr.diffBaseSha ++ "\n"
            ++ "Start SHA: " ++ mr.diffStartSha ++ "\n"
            ++ "Head SHA: " ++ mr.diffHeadSha ++ "\n\n"
            ++ (if mr.description ≠ "" then "Description:\n" ++ mr.description ++ "\n\n" else "")
            ++ "Changes Overview:\n"
            ++ "Total files changed: " ++ toString changes.length ++ "\n\n"
            ++ String.join (changes.map fmtFileChange))
          [c1, c2]

/-- Handler for the create action (`createMergeRequestHandler`). -/
def createMergeRequestHandler (be : Backend) (args : CreateMergeRequestArgs) : HandlerOut :=
  let opt : CreateMROpts :=
    { title := args.title
      description := if args.description ≠ "" then some args.description else none
      sourceBranch := args.sourceBranch
      targetBranch := args.targetBranch }
  let call := BackendCall.createMergeRequest args.projectPath opt
  match be.createMergeRequest args.projectPath opt with
  | .error e => toolResultError ("failed to create merge request: " ++ e) [call]
  | .ok mr =>
    toolResultText
      ("Merge Request created successfully!\n\n"
        ++ "MR #" ++ toString mr.iid ++ ": " ++ mr.title ++ "\n"
        ++ "State: " ++ mr.state ++ "\n"
        ++ "Source Branch: " ++ mr.sourceBranch ++ "\n"
        ++ "Target Branch: " ++ mr.targetBranch ++ "\n"
        ++ "Author: " ++ mr.authorUsername ++ "\n"
        ++ "Created: " ++ mr.createdAt ++ "\n"
        ++ "URL: " ++ mr.webURL ++ "\n"
        ++ (if mr.description ≠ "" then "\nDescription:\n" ++ mr.description else ""))
      [call]

/-- Option-building block of `updateMergeRequestHandler`: a field is set
exactly when the argument is non-zero. -/
def buildUpdateMROpts (args : UpdateMergeRequestArgs) : UpdateMROpts :=
  { title := if args.title ≠ "" then some args.title else none
    description := if args.description ≠ "" then some args.description else none
    targetBranch := if args.targetBranch ≠ "" then some args.targetBranch else none
    stateEvent := if args.stateEvent ≠ "" then some args.stateEvent else none
    assigneeID := if args.assigneeID ≠ 0 then some args.assigneeID else none
    milestoneID := if args.milestoneID ≠ 0 then some args.milestoneID else none
    removeSourceBranch := if args.removeSourceBranch then some args.removeSourceBranch else none
    squash := if args.squash then some args.squash else none
    discussionLocked := if args.discussionLocked then some args.discussionLocked else none }

/-- Handler for the update action (`updateMergeRequestHandler`). -/
def updateMergeRequestHandler (be : Backend) (args : UpdateMergeRequestArgs) : HandlerOut :=
  match goAtoi args.mrIID with
  | none => toolResultError ("invalid mr_iid: " ++ goAtoiErr args.mrIID) []
  | some mrIID =>
    let opt := buildUpdateMROpts args
    let call := BackendCall.updateMergeRequest args.projectPath mrIID opt
    match be.updateMergeRequest args.projectPath mrIID opt with
    | .error e => toolResultError ("failed to update merge request: " ++ e) [call]
    | .ok mr =>
      toolResultText
        ("Merge Request updated successfully!\n\n"
          ++ "MR #" ++ toString mr.iid ++ ": " ++ mr.title ++ "\n"
          ++ "State: " ++ mr.state ++ "\n"
          ++ "Source Branch: " ++ mr.sourceBranch ++ "\n"
          ++ "Target Branch: " ++ mr.targetBranch ++ "\n"
          ++ "Author: " ++ mr.authorUsername ++ "\n"
          ++ "Updated: " ++ mr.updatedAt ++ "\n"
          ++ "URL: " ++ mr.webURL ++ "\n"
          ++ (if mr.description ≠ "" then "\nDescription:\n" ++ mr.description else ""))
        [call]

/-- Handler for the accept action (`acceptMergeRequestHandler`). -/
def acceptMergeRequestHandler (be : Backend) (args : AcceptMergeRequestArgs) : HandlerOut :=
  match goAtoi args.mrIID with
  | none => toolResultError ("invalid mr_iid: " ++ goAtoiErr args.mrIID) []
  | some mrIID =>
    let opt : AcceptMROpts :=
      { mergeCommitMessage :=
          if args.mergeCommitMessage ≠ "" then some args.mergeCommitMessage else none
        squashCommitMessage :=
          if args.squashCommitMessage ≠ "" then some args.squashCommitMessage else none
        squash := if args.squash then some args.squash else none
        shouldRemoveSourceBranch :=
          if args.shouldRemoveSourceBranch then some args.shouldRemoveSourceBranch else none
        mergeWhenPipelineSucceeds :=
          if args.mergeWhenPipelineSucceeds then some args.mergeWhenPipelineSucceeds else none }
    let call := BackendCall.acceptMergeRequest args.projectPath mrIID opt
    match be.acceptMergeRequest args.projectPath mrIID opt with
    | .error e => toolResultError ("failed to accept merge request: " ++ e) [call]
    | .ok mr =>
      toolResultText
        ("Merge Request accepted successfully!\n\n"
          ++ "MR #" ++ toString mr.iid ++ ": " ++ mr.title ++ "\n"
          ++ "State: " ++ mr.state ++ "\n"
          ++ "Source Branch: " ++ mr.sourceBranch ++ "\n"
          ++ "Target Branch: " ++ mr.targetBranch ++ "\n"
          ++ (match mr.mergedAt with
              | some t => "Merged At: " ++ t ++ "\n"
              | none => "")
          ++ (if mr.mergeCommitSHA ≠ "" then "Merge Commit SHA: " ++ mr.mergeCommitSHA ++ "\n" else "")
          ++ "URL: " ++ mr.webURL ++ "\n")
        [call]

/-- Handler for the rebase action (`rebaseMRHandler`). -/
def rebaseMRHandler (be : Backend) (args : RebaseMRArgs) : HandlerOut :=
  match goAtoi args.mrIID with
  | none => toolResultError ("invalid mr_iid: " ++ goAtoiErr args.mrIID) []
  | some mrIID =>
    let call := BackendCall.rebaseMergeRequest args.projectPath mrIID args.skipCI
    match be.rebaseMergeRequest args.projectPath mrIID args.skipCI with
    | .error e => toolResultError ("failed to rebase merge request: " ++ e) [call]
    | .ok _ =>
      toolResultText
        ("Merge Request !" ++ toString mrIID ++ " has been successfully rebased.\n"
          ++ (if args.skipCI then "CI pipeline was skipped for this rebase.\n" else ""))
        [call]

/-- Handler for the changes action (`getMRChangesHandler`). -/
def getMRChangesHandler (be : Backend) (args : GetMRChangesArgs) : HandlerOut :=
  match goAtoi args.mrIID with
  | none => toolResultError ("invalid mr_iid: " ++ goAtoiErr args.mrIID) []
  | some mrIID =>
    let call := BackendCall.getMergeRequestChanges args.projectPath mrIID
      args.accessRawDiffs args.unidiff
    match be.getMergeRequestChanges args.projectPath mrIID args.accessRawDiffs args.unidiff with
    | .error e => toolResultError ("failed to get merge request changes: " ++ e) [call]
    | .ok mr =>
      toolResultText
        ("Changes for Merge Request !" ++ toString mr.iid ++ ": " ++ mr.title ++ "\n"
          ++ "Author: " ++ mr.authorUsername ++ "\n"
          ++ "Source Branch: " ++ mr.sourceBranch ++ "\n"
          ++ "Target Branch: " ++ mr.targetBranch ++ "\n"
          ++ "State: " ++ mr.state ++ "\n"
          ++ (if mr.changesCount ≠ "" then "Changes Count: " ++ mr.changesCount ++ "\n" else "")
          ++ "\n"
          ++ (if mr.description ≠ "" then "Description:\n" ++ mr.description ++ "\n\n" else "")
          ++ "Note: This endpoint is deprecated. Consider using 'get_mr_details' instead for detailed changes information.\n")
        [call]

/-- Rendering of one pipeline in `getMRPipelinesHandler`. -/
def fmtMRPipeline (pipeline : PipelineInfo) : String :=
  "Pipeline ID: " ++ toString pipeline.id ++ "\n"
  ++ "Status: " ++ pipeline.status ++ "\n"
  ++ "Ref: " ++ pipeline.ref ++ "\n"
  ++ "SHA: " ++ pipeline.sha ++ "\n"
  ++ (match pipeline.createdAt with
      | some t => "Created: " ++ t ++ "\n"
      | none => "")
  ++ (match pipeline.updatedAt with
      | some t => "Updated: " ++ t ++ "\n"
      | none => "")
  ++ (if pipeline.webURL ≠ "" then "URL: " ++ pipeline.webURL ++ "\n" else "")
  ++ "\n"

/-- Handler for the merge-request pipelines list (`getMRPipelinesHandler`);
an empty collection ends with an explicit no-results sentence. -/
def getMRPipelinesHandler (be : Backend) (args : GetMRPipelinesArgs) : HandlerOut :=
  match goAtoi args.mrIID with
  | none => toolResultError ("invalid mr_iid: " ++ goAtoiErr args.mrIID) []
  | some mrIID =>
    let call := BackendCall.listMergeRequestPipelines args.projectPath mrIID
    match be.listMergeRequestPipelines args.projectPath mrIID with
    | .error e => toolResultError ("failed to get merge request pipelines: " ++ e) [call]
    | .ok pipelines =>
      toolResultText
        ("Pipelines for Merge Request !" ++ toString mrIID ++ ":\n\n"
          ++ String.join (pipelines.map fmtMRPipeline)
          ++ (if pipelines.length = 0 then "No pipelines found for this merge request.\n" else ""))
        [call]

/-- Defaulted list state of the list action: "all" when the ListOptions
state is absent. -/
def mrListState (args : MergeRequestManagementArgs) : String :=
  if args.listOptions.state ≠ "" then args.listOptions.state else "all"

/-- Dispatcher of the consolidated manage_merge_request tool
(`mergeRequestManagementHandler`): routes on the action string, checks
the conditionally required fields and fills the list-state default. -/
def mergeRequestManagementHandler (be : Backend) (args : MergeRequestManagementArgs) : HandlerOut :=
  match args.action with
  | "list" =>
    listMergeRequestsHandler be { projectPath := args.projectPath, state := mrListState args }
  | "get" =>
    if args.mrIID = "" then
      toolResultError "mr_iid is required for get action" []
    else
      getMergeRequestHandler be { projectPath := args.projectPath, mrIID := args.mrIID }
  | "create" =>
    if args.createOptions.sourceBranch = "" ∨ args.createOptions.targetBranch = ""
        ∨ args.createOptions.title = "" then
      toolResultError "source_branch, target_branch, and title are required for create action" []
    else
      createMergeRequestHandler be
        { projectPath := args.projectPath
          sourceBranch := args.createOptions.sourceBranch
          targetBranch := args.createOptions.targetBranch
          title := args.createOptions.title
          description := args.createOptions.description }
  | "update" =>
    if args.mrIID = "" then
      toolResultError "mr_iid is required for update action" []
    else
      updateMergeRequestHandler be
        { projectPath := args.projectPath
          mrIID := args.mrIID
          title := args.updateOptions.title
          description := args.updateOptions.description
          targetBranch := args.updateOptions.targetBranch
          stateEvent := args.updateOptions.stateEvent
          assigneeID := args.updateOptions.assigneeID
          milestoneID := args.updateOptions.milestoneID
          labels := args.updateOptions.labels
          removeSourceBranch := args.updateOptions.removeSourceBranch
          squash := args.updateOptions.squash
          discussionLocked := args.updateOptions.discussionLocked }
  | "accept" =>
    if args.mrIID = "" then
      toolResultError "mr_iid is required for accept action" []
    else
      acceptMergeRequestHandler be
        { projectPath := args.projectPath
          mrIID := args.mrIID
          mergeCommitMessage := args.acceptOptions.mergeCommitMessage
          squashCommitMessage := args.acceptOptions.squashCommitMessage
          squash := args.acceptOptions.squash
          shouldRemoveSourceBranch := args.acceptOptions.shouldRemoveSourceBranch
          mergeWhenPipelineSucceeds := args.acceptOptions.mergeWhenPipelineSucceeds }
  | "rebase" =>
    if args.mrIID = "" then
      toolResultError "mr_iid is required for rebase action" []
    else
      rebaseMRHandler be
        { projectPath := args.projectPath
          mrIID := args.mrIID
          skipCI := args.rebaseOptions.skipCI }
  | "changes" =>
    if args.mrIID = "" then
      toolResultError "mr_iid is required for changes action" []
    else
      getMRChangesHandler be
        { projectPath := args.projectPath
          mrIID := args.mrIID
          accessRawDiffs := args.changesOptions.accessRawDiffs
          unidiff := args.changesOptions.unidiff }
  | other =>
    toolResultError
      ("unsupported action: " ++ other
        ++ ". Supported actions: list, get, create, update, accept, rebase, changes") []

/-! Time parsing models. Go `time.Parse` is modelled at the shape level
(digit and separator positions of the layout); calendar range checks are
elided since no claim depends on them, and the rich Go parse-error text
is abbreviated to its stable prefix. -/

/-- Message of a `time.Parse` failure (abbreviated, see section header). -/
def goParseTimeErrMsg (layout value : String) : String :=
  "parsing time \"" ++ value ++ "\" as \"" ++ layout ++ "\": cannot parse"

/-- Shape check for the "2006-01-02" layout. -/
def dateShapeOk (s : String) : Bool :=
  let cs := s.data
  cs.length == 10
    && [0, 1, 2, 3, 5, 6, 8, 9].all (fun i => (cs.getD i ' ').isDigit)
    && cs.getD 4 ' ' == '-' && cs.getD 7 ' ' == '-'

/-- Shape check for the "2006-01-02 15:04:05" layout. -/
def dateTimeShapeOk (s : String) : Bool :=
  let cs := s.data
  cs.length == 19
    && [0, 1, 2, 3, 5, 6, 8, 9, 11, 12, 14, 15, 17, 18].all
        (fun i => (cs.getD i ' ').isDigit)
    && cs.getD 4 ' ' == '-' && cs.getD 7 ' ' == '-' && cs.getD 10 ' ' == ' '
    && cs.getD 13 ' ' == ':' && cs.getD 16 ' ' == ':'

/-- Shape check for the RFC 3339 layout "2006-01-02T15:04:05Z07:00". -/
def rfc3339ShapeOk (s : String) : Bool :=
  let cs := s.data
  let zone := cs.drop 19
  (cs.length ≥ 19
      && [0, 1, 2, 3, 5, 6, 8, 9, 11, 12, 14, 15, 17, 18].all
          (fun i => (cs.getD i ' ').isDigit)
      && cs.getD 4 ' ' == '-' && cs.getD 7 ' ' == '-' && cs.getD 10 ' ' == 'T'
      && cs.getD 13 ' ' == ':' && cs.getD 16 ' ' == ':')
    && (zone == ['Z']
      || (zone.length == 6
          && (zone.getD 0 ' ' == '+' || zone.getD 0 ' ' == '-')
          && (zone.getD 1 ' ').isDigit && (zone.getD 2 ' ').isDigit
          && zone.getD 3 ' ' == ':'
          && (zone.getD 4 ' ').isDigit && (zone.getD 5 ' ').isDigit))

/-! Argument structures and handlers of the consolidated deploy-token
tool (src/tools/pipelines.go, manage_deploy_tokens). -/

/-- Scope block of the deploy-token arguments. -/
structure DeployTokenScope where
  type : String
  projectPath : String
  groupID : String
  deriving Repr, DecidableEq, Inhabited

/-- Token-identifier block of the deploy-token arguments. -/
structure DeployTokenIdentifier where
  id : String
  deriving Repr, DecidableEq, Inhabited

/-- Create-options block of the deploy-token arguments. -/
structure DeployTokenCreateOptions where
  name : String
  username : String
  expiresAt : String
  scopes : List String
  deriving Repr, DecidableEq, Inhabited

/-- Arguments of the consolidated manage_deploy_tokens tool; `none`
models a nil pointer for the two pointer-typed blocks. -/
structure ManageDeployTokensArgs where
  action : String
  scope : DeployTokenScope
  tokenID : Option DeployTokenIdentifier
  createOpts : Option DeployTokenCreateOptions
  deriving Repr, DecidableEq, Inhabited

/-- Go panic on a nil-pointer dereference, surfacing as a Go-level
fault rather than a tool result (unreachable from the dispatcher, which
validates the pointers first). -/
def nilDereferencePanic : HandlerOut :=
  { text := "", isError := true
    goErr := some "runtime error: invalid memory address or nil pointer dereference"
    calls := [] }

/-- Rendering of one deploy token, shared by the report builders (Go
`%v` renders a string slice as bracketed space-separated items). -/
def fmtDeployToken (token : DeployToken) : String :=
  "ID: " ++ toString token.id ++ "\nName: " ++ token.name
    ++ "\nUsername: " ++ token.username
    ++ "\nRevoked: " ++ toString token.revoked
    ++ "\nExpired: " ++ toString token.expired
    ++ "\nScopes: [" ++ String.intercalate " " token.scopes ++ "]\n"
  ++ (match token.expiresAt with
      | some t => "Expires: " ++ t ++ "\n"
      | none => "")
  ++ "\n"

/-- Detail rendering used by `handleGetDeployToken` (no trailing blank
line, unlike the list rendering). -/
def fmtDeployTokenDetails (token : DeployToken) : String :=
  "ID: " ++ toString token.id ++ "\nName: " ++ token.name
    ++ "\nUsername: " ++ token.username
    ++ "\nRevoked: " ++ toString token.revoked
    ++ "\nExpired: " ++ toString token.expired
    ++ "\nScopes: [" ++ String.intercalate " " token.scopes ++ "]\n"
  ++ (match token.expiresAt with
      | some t => "Expires: " ++ t ++ "\n"
      | none => "")

/-- Sub-handler for the list action (`handleListDeployTokens`). -/
def handleListDeployTokens (be : Backend) (args : ManageDeployTokensArgs) : HandlerOut :=
  if args.scope.type = "project" then
    let call := BackendCall.listProjectDeployTokens args.scope.projectPath
    match be.listProjectDeployTokens args.scope.projectPath with
    | .error e => toolResultError ("failed to list project deploy tokens: " ++ e) [call]
    | .ok tokens =>
      toolResultText
        ("Deploy tokens for project '" ++ args.scope.projectPath ++ "' ("
          ++ toString tokens.length ++ " tokens):\n\n"
          ++ String.join (tokens.map fmtDeployToken))
        [call]
  else
    let call := BackendCall.listGroupDeployTokens args.scope.groupID
    match be.listGroupDeployTokens args.scope.groupID with
    | .error e => toolResultError ("failed to list group deploy tokens: " ++ e) [call]
    | .ok tokens =>
      toolResultText
        ("Deploy tokens for group '" ++ args.scope.groupID ++ "' ("
          ++ toString tokens.length ++ " tokens):\n\n"
          ++ String.join (tokens.map fmtDeployToken))
        [call]

/-- Sub-handler for the get action (`handleGetDeployToken`). -/
def handleGetDeployToken (be : Backend) (args : ManageDeployTokensArgs) : HandlerOut :=
  match args.tokenID with
  | none => nilDereferencePanic
  | some tokenID =>
    match goAtoi tokenID.id with
    | none => toolResultError ("invalid deploy token ID: " ++ goAtoiErr tokenID.id) []
    | some deployTokenID =>
      if args.scope.type = "project" then
        let call := BackendCall.getProjectDeployToken args.scope.projectPath deployTokenID
        match be.getProjectDeployToken args.scope.projectPath deployTokenID with
        | .error e => toolResultError ("failed to get project deploy token: " ++ e) [call]
        | .ok token =>
          toolResultText ("Project Deploy Token Details:\n\n" ++ fmtDeployTokenDetails token) [call]
      else
        let call := BackendCall.getGroupDeployToken args.scope.groupID deployTokenID
        match be.getGroupDeployToken args.scope.groupID deployTokenID with
        | .error e => toolResultError ("failed to get group deploy token: " ++ e) [call]
        | .ok token =>
          toolResultText ("Group Deploy Token Details:\n\n" ++ fmtDeployTokenDetails token) [call]

/-- Success rendering of a freshly created deploy token. -/
def fmtCreatedDeployToken (kind scopeName : String) (token : DeployToken) : String :=
  "✅ Deploy token created successfully for " ++ kind ++ " '" ++ scopeName ++ "'!\n\n"
    ++ "ID: " ++ toString token.id ++ "\nName: " ++ token.name
    ++ "\nUsername: " ++ token.username
    ++ "\nToken: " ++ token.token
    ++ "\nScopes: [" ++ String.intercalate " " token.scopes ++ "]\n"
  ++ (match token.expiresAt with
      | some t => "Expires: " ++ t ++ "\n"
      | none => "")
  ++ "\n⚠️  Important: Save the token value now. You won't be able to access it again!"

/-- Sub-handler for the create action (`handleCreateDeployToken`). -/
def handleCreateDeployToken (be : Backend) (args : ManageDeployTokensArgs) : HandlerOut :=
  match args.createOpts with
  | none => nilDereferencePanic
  | some createOpts =>
    if createOpts.expiresAt ≠ "" ∧ ¬ rfc3339ShapeOk createOpts.expiresAt then
      toolResultError
        ("invalid expires_at format: "
          ++ goParseTimeErrMsg "2006-01-02T15:04:05Z07:00" createOpts.expiresAt) []
    else
      let opt : CreateDeployTokenOpts :=
        { name := createOpts.name
          username := if createOpts.username ≠ "" then some createOpts.username else none
          expiresAt := if createOpts.expiresAt ≠ "" then some createOpts.expiresAt else none
          scopes := createOpts.scopes }
      if args.scope.type = "project" then
        let call := BackendCall.createProjectDeployToken args.scope.projectPath opt
        match be.createProjectDeployToken args.scope.projectPath opt with
        | .error e => toolResultError ("failed to create project deploy token: " ++ e) [call]
        | .ok token =>
          toolResultText (fmtCreatedDeployToken "project" args.scope.projectPath token) [call]
      else
        let call := BackendCall.createGroupDeployToken args.scope.groupID opt
        match be.createGroupDeployToken args.scope.groupID opt with
        | .error e => toolResultError ("failed to create group deploy token: " ++ e) [call]
        | .ok token =>
          toolResultText (fmtCreatedDeployToken "group" args.scope.groupID token) [call]

/-- Sub-handler for the delete action (`handleDeleteDeployToken`). -/
def handleDeleteDeployToken (be : Backend) (args : ManageDeployTokensArgs) : HandlerOut :=
  match args.tokenID with
  | none => nilDereferencePanic
  | some tokenID =>
    match goAtoi tokenID.id with
    | none => toolResultError ("invalid deploy token ID: " ++ goAtoiErr tokenID.id) []
    | some deployTokenID =>
      if args.scope.type = "project" then
        let call := BackendCall.deleteProjectDeployToken args.scope.projectPath deployTokenID
        match be.deleteProjectDeployToken args.scope.projectPath deployTokenID with
        | .error e => toolResultError ("failed to delete project deploy token: " ++ e) [call]
        | .ok _ =>
          toolResultText
            ("✅ Deploy token " ++ tokenID.id ++ " deleted successfully from project '"
              ++ args.scope.projectPath ++ "'") [call]
      else
        let call := BackendCall.deleteGroupDeployToken args.scope.groupID deployTokenID
        match be.deleteGroupDeployToken args.scope.groupID deployTokenID with
        | .error e => toolResultError ("failed to delete group deploy token: " ++ e) [call]
        | .ok _ =>
          toolResultText
            ("✅ Deploy token " ++ tokenID.id ++ " deleted successfully from group '"
              ++ args.scope.groupID ++ "'") [call]

/-- Dispatcher of the consolidated manage_deploy_tokens tool
(`manageDeployTokensHandler`): scope validation precedes the
action-specific validation and the action switch. -/
def manageDeployTokensHandler (be : Backend) (args : ManageDeployTokensArgs) : HandlerOut :=
  if args.scope.type ≠ "project" ∧ args.scope.type ≠ "group" then
    toolResultError "scope.type must be either 'project' or 'group'" []
  else if args.scope.type = "project" ∧ args.scope.projectPath = "" then
    toolResultError "scope.project_path is required for project scope" []
  else if args.scope.type = "group" ∧ args.scope.groupID = "" then
    toolResultError "scope.group_id is required for group scope" []
  else if (args.action = "get" ∨ args.action = "delete") ∧ args.tokenID = none then
    toolResultError "token_id is required for get/delete actions" []
  else if args.action = "create" ∧ args.createOpts = none then
    toolResultError "create_options is required for create action" []
  else if args.action = "create" ∧ (args.createOpts.map (fun o => o.name)).getD "" = "" then
    toolResultError "create_options.name is required for create action" []
  else if args.action = "create"
      ∧ (args.createOpts.map (fun o => o.scopes.length)).getD 0 = 0 then
    toolResultError "create_options.scopes is required for create action" []
  else
    match args.action with
    | "list" => handleListDeployTokens be args
    | "get" => handleGetDeployToken be args
    | "create" => handleCreateDeployToken be args
    | "delete" => handleDeleteDeployToken be args
    | other => toolResultError ("unsupported action: " ++ other) []

/-! Git Flow finish handlers (src/unnamed/part_009): two sequential
merge-request creations with no compensation path. -/

/-- Arguments of gitflow_finish_release. -/
structure FinishReleaseArgs where
  projectPath : String
  releaseVersion : String
  deleteBranch : Bool
  developmentBranch : String
  productionBranch : String
  deriving Repr, DecidableEq, Inhabited

/-- Arguments of gitflow_finish_hotfix. -/
structure FinishHotfixArgs where
  projectPath : String
  hotfixVersion : String
  deleteBranch : Bool
  developmentBranch : String
  productionBranch : String
  deriving Repr, DecidableEq, Inhabited

/-- Report fragment of one merge-request creation attempt inside a
finish handler. -/
def fmtFlowMRAttempt (target : String) (outcome : Except String MergeRequest) : String :=
  match outcome with
  | .error e => "❌ Failed to create MR to " ++ target ++ ": " ++ e ++ "\n"
  | .ok mr =>
    "✅ Created MR to " ++ target ++ ": !" ++ toString mr.iid ++ "\n"
      ++ "   URL: " ++ mr.webURL ++ "\n"

/-- Report fragment of the optional branch deletion in a finish handler. -/
def fmtFlowBranchDeletion (kind branch : String) (outcome : Except String Unit) : String :=
  match outcome with
  | .error e => "⚠️  Failed to delete " ++ kind ++ " branch: " ++ e ++ "\n"
  | .ok _ => "🗑️  Deleted " ++ kind ++ " branch: " ++ branch ++ "\n"

/-- Merge-request options of the first (development-bound) creation in
`finishReleaseHandler`. -/
def releaseDevelopMROpts (version developmentBranch releaseBranch : String) : CreateMROpts :=
  { title := "Release " ++ version
    description := some ("Release " ++ version ++ " ready for merge to " ++ developmentBranch
      ++ "\n\n- [ ] Code review completed\n- [ ] Tests passing\n- [ ] Documentation updated")
    sourceBranch := releaseBranch
    targetBranch := developmentBranch }

/-- Merge-request options of the second (production-bound) creation in
`finishReleaseHandler`. -/
def releaseMasterMROpts (version productionBranch releaseBranch : String) : CreateMROpts :=
  { title := "Release " ++ version
    description := some ("Release " ++ version ++ " ready for production"
      ++ "\n\n- [ ] Release notes prepared\n- [ ] Deployment plan reviewed\n- [ ] Rollback plan confirmed")
    sourceBranch := releaseBranch
    targetBranch := productionBranch }

/-- Handler of gitflow_finish_release (`finishReleaseHandler`): verifies
the release branch, then attempts the two merge-request creations in
sequence, reporting each outcome in order without compensation. -/
def finishReleaseHandler (be : Backend) (args : FinishReleaseArgs) : HandlerOut :=
  let releaseBranch := "release/" ++ args.releaseVersion
  let developmentBranch := if args.developmentBranch = "" then "develop" else args.developmentBranch
  let productionBranch := if args.productionBranch = "" then "master" else args.productionBranch
  let cBranch := BackendCall.getBranch args.projectPath releaseBranch
  match be.getBranch args.projectPath releaseBranch with
  | .error e =>
    toolResultError ("release branch '" ++ releaseBranch ++ "' not found: " ++ e) [cBranch]
  | .ok _ =>
    let devOpts := releaseDevelopMROpts args.releaseVersion developmentBranch releaseBranch
    let cDev := BackendCall.createMergeRequest args.projectPath devOpts
    let devOutcome := be.createMergeRequest args.projectPath devOpts
    let masterOpts := releaseMasterMROpts args.releaseVersion productionBranch releaseBranch
    let cMaster := BackendCall.createMergeRequest args.projectPath masterOpts
    let masterOutcome := be.createMergeRequest args.projectPath masterOpts
    let cDelete :=
      if args.deleteBranch then [BackendCall.deleteBranch args.projectPath releaseBranch] else []
    let deleteText :=
      if args.deleteBranch then
        fmtFlowBranchDeletion "release" releaseBranch (be.deleteBranch args.projectPath releaseBranch)
      else ""
    toolResultText
      ("🚀 Finishing release " ++ args.releaseVersion ++ "\n\n"
        ++ fmtFlowMRAttempt developmentBranch devOutcome
        ++ fmtFlowMRAttempt productionBranch masterOutcome
        ++ deleteText
        ++ "\n📋 Release " ++ args.releaseVersion ++ " is ready for review and merge!\n")
      ([cBranch, cDev, cMaster] ++ cDelete)

/-- Merge-request options of the first (production-bound) creation in
`finishHotfixHandler`. -/
def hotfixMasterMROpts (version productionBranch hotfixBranch : String) : CreateMROpts :=
  { title := "Hotfix " ++ version
    description := some ("Critical hotfix " ++ version
      ++ "\n\n- [ ] Fix verified\n- [ ] Tests passing\n- [ ] Ready for immediate deployment")
    sourceBranch := hotfixBranch
    targetBranch := productionBranch }

/-- Merge-request options of the second (development-bound) creation in
`finishHotfixHandler`. -/
def hotfixDevelopMROpts (version developmentBranch hotfixBranch : String) : CreateMROpts :=
  { title := "Hotfix " ++ version
    description := some ("Hotfix " ++ version ++ " merge to " ++ developmentBranch
      ++ "\n\n- [ ] Conflicts resolved\n- [ ] Tests updated if needed")
    sourceBranch := hotfixBranch
    targetBranch := developmentBranch }

/-- Handler of gitflow_finish_hotfix (`finishHotfixHandler`): the
production-bound creation runs first, then the development-bound one. -/
def finishHotfixHandler (be : Backend) (args : FinishHotfixArgs) : HandlerOut :=
  let hotfixBranch := "hotfix/" ++ args.hotfixVersion
  let developmentBranch := if args.developmentBranch = "" then "develop" else args.developmentBranch
  let productionBranch := if args.productionBranch = "" then "master" else args.productionBranch
  let cBranch := BackendCall.getBranch args.projectPath hotfixBranch
  match be.getBranch args.projectPath hotfixBranch with
  | .error e =>
    toolResultError ("hotfix branch '" ++ hotfixBranch ++ "' not found: " ++ e) [cBranch]
  | .ok _ =>
    let masterOpts := hotfixMasterMROpts args.hotfixVersion productionBranch hotfixBranch
    let cMaster := BackendCall.createMergeRequest args.projectPath masterOpts
    let masterOutcome := be.createMergeRequest args.projectPath masterOpts
    let devOpts := hotfixDevelopMROpts args.hotfixVersion developmentBranch hotfixBranch
    let cDev := BackendCall.createMergeRequest args.projectPath devOpts
    let devOutcome := be.createMergeRequest args.projectPath devOpts
    let cDelete :=
      if args.deleteBranch then [BackendCall.deleteBranch args.projectPath hotfixBranch] else []
    let deleteText :=
      if args.deleteBranch then
        fmtFlowBranchDeletion "hotfix" hotfixBranch (be.deleteBranch args.projectPath hotfixBranch)
      else ""
    toolResultText
      ("🚨 Finishing hotfix " ++ args.hotfixVersion ++ "\n\n"
        ++ fmtFlowMRAttempt productionBranch masterOutcome
        ++ fmtFlowMRAttempt developmentBranch devOutcome
        ++ deleteText
        ++ "\n🚨 Hotfix " ++ args.hotfixVersion ++ " is ready for urgent review and deployment!\n")
      ([cBranch, cMaster, cDev] ++ cDelete)

/-! Thin readers with documented defaults (src/unnamed/part_008). -/

/-- Single-file reader (`getFileContent`): the ref defaults to develop. -/
def getFileContent (be : Backend) (projectPath filePath ref : String) : HandlerOut :=
  let refName := if ref = "" then "develop" else ref
  let call := BackendCall.getRawFile projectPath filePath refName
  match be.getRawFile projectPath filePath refName with
  | .error e => toolResultError ("failed to get file content: " ++ e ++ "; maybe wrong ref?") [call]
  | .ok fileContent =>
    toolResultText
      ("File: " ++ filePath ++ "\nRef: " ++ refName ++ "\nContent:\n" ++ fileContent)
      [call]

/-- Rendering of one commit in `listCommits`. -/
def fmtListedCommit (commit : CommitInfo) : String :=
  "Commit: " ++ commit.id ++ "\nAuthor: " ++ commit.authorName
    ++ "\nDate: " ++ commit.committedDate ++ "\nMessage: " ++ commit.title ++ "\n"
  ++ (match commit.lastPipelineStatus with
      | some (status, ref, sha, createdAt) =>
        "Last Pipeline: \n  Status: " ++ status ++ "\n  Ref: " ++ ref
          ++ "\n  SHA: " ++ sha ++ "\n  Created: " ++ createdAt ++ "\n"
      | none => "")
  ++ "\n"

/-- Commit lister (`listCommits`): `now` is the pre-rendered value of
`time.Now().Format("2006-01-02")`, the default for an absent until. -/
def listCommits (be : Backend) (now projectPath since untilArg ref : String) : HandlerOut :=
  let untilDate := if untilArg = "" then now else untilArg
  let refName := if ref = "" then "develop" else ref
  if ¬ dateShapeOk since then
    toolResultError ("invalid since date: " ++ goParseTimeErrMsg "2006-01-02" since) []
  else if ¬ dateTimeShapeOk (untilDate ++ " 23:00:00") then
    toolResultError
      ("invalid until date: "
        ++ goParseTimeErrMsg "2006-01-02 15:04:05" (untilDate ++ " 23:00:00")) []
  else
    let call := BackendCall.listCommits projectPath since (untilDate ++ " 23:00:00") refName
    match be.listCommits projectPath since (untilDate ++ " 23:00:00") refName with
    | .error e => toolResultError ("failed to list commits: " ++ e) [call]
    | .ok commits =>
      toolResultText
        ("Commits for project " ++ projectPath ++ " between " ++ since ++ " and "
          ++ untilDate ++ " (ref: " ++ refName ++ "):\n\n"
          ++ String.join (commits.map fmtListedCommit))
        [call]

/-! Lazily initialized Backend Client handle (src/go.mod companion file,
util package). The Go code wraps the constructor in `sync.OnceValue`,
whose documented contract makes the whole first call — check, construct,
cache — mutually exclusive with every concurrent call; each call is
therefore one atomic step of the model, and an arbitrary interleaving of
concurrent callers is an arbitrary finite sequence of such steps. -/

/-- Environment configuration read by the constructor. -/
structure GitlabEnv where
  token : String
  url : String
  deriving Repr, DecidableEq

/-- Connection handle; it holds only connection and auth configuration. -/
structure Client where
  token : String
  baseURL : String
  deriving Repr, DecidableEq

/-- Constructor body passed to `sync.OnceValue`; an `error` result
models the `log.Fatal` process abort on missing configuration. -/
def mkGitlabClient (env : GitlabEnv) : Except String Client :=
  if env.token = "" then .error "GITLAB_TOKEN is required"
  else if env.url = "" then .error "GITLAB_URL is required"
  else .ok { token := env.token, baseURL := env.url }

/-- One atomic call of the once-guarded `util.GitlabClient`: returns the
cached handle, or constructs and caches it; the Bool records whether the
constructor body ran during this call. -/
def gitlabClientCall (env : GitlabEnv) (cached : Option Client) :
    Except String Client × Option Client × Bool :=
  match cached with
  | some c => (.ok c, some c, false)
  | none =>
    match mkGitlabClient env with
    | .ok c => (.ok c, some c, true)
    | .error e => (.error e, none, true)

/-- Sequence of `n` calls to `util.GitlabClient` (an arbitrary
interleaving of concurrent callers, each call atomic): the list of
returned handles and the number of constructor executions. -/
def runGitlabClientCalls (env : GitlabEnv) : Nat → Option Client →
    List (Except String Client) × Nat
  | 0, _ => ([], 0)
  | n + 1, cached =>
    let step := gitlabClientCall env cached
    let rest := runGitlabClientCalls env n step.2.1
    (step.1 :: rest.1, (if step.2.2 then 1 else 0) + rest.2)

/-- Executable infix test on lists, used for substring claims. -/
def listInfixOf (pat : List Char) : List Char → Bool
  | [] => pat.isEmpty
  | c :: tail => pat.isPrefixOf (c :: tail) || listInfixOf pat tail

/-- Executable substring test used to state claims about report texts. -/
def strInfix (pat s : String) : Bool :=
  listInfixOf pat.data s.data

/-! Projections capturing which parts of a request the dispatchers read:
the common fields, the action, and only the option block governed by the
selected action (other blocks are replaced by their zero value). -/

/-- View of a manage_merge_request request keeping only the fields the
selected action governs. -/
def selectedMRView (args : MergeRequestManagementArgs) : MergeRequestManagementArgs :=
  { action := args.action
    projectPath := args.projectPath
    mrIID := args.mrIID
    listOptions := if args.action = "list" then args.listOptions else default
    createOptions := if args.action = "create" then args.createOptions else default
    updateOptions := if args.action = "update" then args.updateOptions else default
    acceptOptions := if args.action = "accept" then args.acceptOptions else default
    rebaseOptions := if args.action = "rebase" then args.rebaseOptions else default
    changesOptions := if args.action = "changes" then args.changesOptions else default }

/-- View of a manage_deploy_tokens request keeping only the blocks the
selected action governs (the scope block is read by every action). -/
def selectedDTView (args : ManageDeployTokensArgs) : ManageDeployTokensArgs :=
  { action := args.action
    scope := args.scope
    tokenID := if args.action = "get" ∨ args.action = "delete" then args.tokenID else none
    createOpts := if args.action = "create" then args.createOpts else none }

/-! Concrete fixtures used by the closed witness and counterexample
theorems. `emptyBackend` is the call-count spy of the specification:
every method fails, so any output it influences would be visible. -/

/-- Spy oracle whose every method reports an error. -/
def emptyBackend : Backend where
  listProjectMergeRequests _ _ _ := .error "unreachable"
  getMergeRequest _ _ := .error "unreachable"
  listMergeRequestDiffs _ _ := .error "unreachable"
  createMergeRequest _ _ := .error "unreachable"
  updateMergeRequest _ _ _ := .error "unreachable"
  acceptMergeRequest _ _ _ := .error "unreachable"
  rebaseMergeRequest _ _ _ := .error "unreachable"
  getMergeRequestChanges _ _ _ _ := .error "unreachable"
  listMergeRequestPipelines _ _ := .error "unreachable"
  listProjectDeployTokens _ := .error "unreachable"
  listGroupDeployTokens _ := .error "unreachable"
  getProjectDeployToken _ _ := .error "unreachable"
  getGroupDeployToken _ _ := .error "unreachable"
  createProjectDeployToken _ _ := .error "unreachable"
  createGroupDeployToken _ _ := .error "unreachable"
  deleteProjectDeployToken _ _ := .error "unreachable"
  deleteGroupDeployToken _ _ := .error "unreachable"
  getBranch _ _ := .error "unreachable"
  deleteBranch _ _ := .error "unreachable"
  getRawFile _ _ _ := .error "unreachable"
  listCommits _ _ _ _ := .error "unreachable"

/-- Sample merge request returned by stub backends. -/
def sampleMR : MergeRequest :=
  { iid := 7, title := "Sample", state := "opened", sourceBranch := "feature/x"
    targetBranch := "develop", authorUsername := "alice"
    webURL := "https://gitlab.example.com/mr/7"
    createdAt := "2024-01-01 00:00:00", updatedAt := "2024-01-02 00:00:00"
    mergedAt := none, closedAt := none, description := ""
    mergeCommitSHA := "", changesCount := ""
    diffBaseSha := "", diffStartSha := "", diffHeadSha := "" }

/-- Consolidated MR request with a list action. -/
def listArgs0 : MergeRequestManagementArgs :=
  { action := "list", projectPath := "group/proj", mrIID := ""
    listOptions := default, createOptions := default, updateOptions := default
    acceptOptions := default, rebaseOptions := default, changesOptions := default }

/-- Consolidated MR request with a get action and a non-numeric mr_iid. -/
def getArgsBadIID : MergeRequestManagementArgs :=
  { listArgs0 with action := "get", mrIID := "abc" }

/-- Consolidated MR request omitting only the create title. -/
def createArgsNoTitle : MergeRequestManagementArgs :=
  { listArgs0 with
    action := "create"
    createOptions :=
      { sourceBranch := "feature/x", targetBranch := "develop", title := "", description := "" } }

/-- Consolidated MR request updating state_event to the out-of-enum
value "archive". -/
def updateArgsArchive : MergeRequestManagementArgs :=
  { listArgs0 with
    action := "update", mrIID := "42"
    updateOptions :=
      { title := "", description := "", targetBranch := "", stateEvent := "archive"
        assigneeID := 0, milestoneID := 0, labels := ""
        removeSourceBranch := false, squash := false, discussionLocked := false } }

/-- Stub backend accepting every update. -/
def beUpdateOk : Backend :=
  { emptyBackend with updateMergeRequest := fun _ _ _ => .ok sampleMR }

/-- Stub backend returning an empty merge-request list. -/
def beEmptyLists : Backend :=
  { emptyBackend with
    listProjectMergeRequests := fun _ _ _ => .ok []
    listMergeRequestPipelines := fun _ _ => .ok [] }

/-- Deploy-token request whose action and scope type are both invalid. -/
def dtArgsBad : ManageDeployTokensArgs :=
  { action := "explode", scope := { type := "", projectPath := "", groupID := "" }
    tokenID := none, createOpts := none }

/-- Deploy-token request with an unknown action but a valid scope. -/
def dtArgsUnknownOkScope : ManageDeployTokensArgs :=
  { action := "explode", scope := { type := "project", projectPath := "group/proj", groupID := "" }
    tokenID := none, createOpts := none }

/-- Deploy-token get request with a valid scope and no token_id. -/
def dtArgsGetNoToken : ManageDeployTokensArgs :=
  { dtArgsUnknownOkScope with action := "get" }

/-- Stub backend where only the develop-bound MR creation succeeds. -/
def beDevOk : Backend :=
  { emptyBackend with
    getBranch := fun _ _ => .ok ()
    createMergeRequest := fun _ opts =>
      if opts.targetBranch = "develop" then .ok sampleMR else .error "boom" }

/-- Stub backend where only the master-bound MR creation succeeds. -/
def beMasterOk : Backend :=
  { emptyBackend with
    getBranch := fun _ _ => .ok ()
    createMergeRequest := fun _ opts =>
      if opts.targetBranch = "master" then .ok sampleMR else .error "boom" }

/-- Finish-release request with default branch names and no deletion. -/
def finRelArgs0 : FinishReleaseArgs :=
  { projectPath := "group/proj", releaseVersion := "1.2.0"
    deleteBranch := false, developmentBranch := "", productionBranch := "" }

/-- Finish-hotfix request with default branch names and no deletion. -/
def finHotArgs0 : FinishHotfixArgs :=
  { projectPath := "group/proj", hotfixVersion := "1.2.1"
    deleteBranch := false, developmentBranch := "", productionBranch := "" }

/-! Claim theorems. -/

/-- C10: for every manage_merge_request request with action get, update,
accept, rebase or changes whose mr_iid is non-empty but rejected by the
strconv.Atoi model, the handler returns the error text
"invalid mr_iid: ..." as a normal tool result (nil Go error) and issues
no Backend Client call. -/
theorem mrIID_numeric_parse_rejection (be : Backend)
    (args : MergeRequestManagementArgs)
    (hact : args.action = "get" ∨ args.action = "update" ∨ args.action = "accept"
      ∨ args.action = "rebase" ∨ args.action = "changes")
    (hne : args.mrIID ≠ "") (hbad : goAtoi args.mrIID = none) :
    mergeRequestManagementHandler be args
      = toolResultError ("invalid mr_iid: " ++ goAtoiErr args.mrIID) [] := by
  rcases hact with h | h | h | h | h <;>
    simp [mergeRequestManagementHandler, h, hne, getMergeRequestHandler,
      updateMergeRequestHandler, acceptMergeRequestHandler, rebaseMRHandler,
      getMRChangesHandler, hbad]

/-- Witness for C10 at the concrete request with action get and
mr_iid "abc". -/
theorem mrIID_numeric_parse_rejection_witness :
    mergeRequestManagementHandler emptyBackend getArgsBadIID
      = toolResultError ("invalid mr_iid: " ++ goAtoiErr "abc") [] :=
  mrIID_numeric_parse_rejection emptyBackend getArgsBadIID (Or.inl rfl)
    (by decide) (by decide)

/-- C1 counterexample: a manage_deploy_tokens request whose action is
outside the declared enum but whose scope block is also invalid is
rejected by the scope pre-validation, so its error text does not contain
"unsupported action" (no Backend Client call is made either way). -/
theorem unsupported_action_counterexample :
    (manageDeployTokensHandler emptyBackend dtArgsBad).text
        = "scope.type must be either 'project' or 'group'"
      ∧ strInfix "unsupported action" (manageDeployTokensHandler emptyBackend dtArgsBad).text
          = false
      ∧ (manageDeployTokensHandler emptyBackend dtArgsBad).calls = []
      ∧ dtArgsBad.action ≠ "list" ∧ dtArgsBad.action ≠ "get"
      ∧ dtArgsBad.action ≠ "create" ∧ dtArgsBad.action ≠ "delete" := by
  decide

/-- C1 as amended: a request with an undeclared action never triggers a
Backend Client call; the manage_merge_request dispatcher always answers
with the "unsupported action" error text, and the manage_deploy_tokens
dispatcher does so whenever the request passes its scope
pre-validation. -/
theorem unsupported_action_rejection :
    (∀ (be : Backend) (args : MergeRequestManagementArgs),
      args.action ≠ "list" → args.action ≠ "get" → args.action ≠ "create" →
      args.action ≠ "update" → args.action ≠ "accept" → args.action ≠ "rebase" →
      args.action ≠ "changes" →
      mergeRequestManagementHandler be args
        = toolResultError ("unsupported action: " ++ args.action
            ++ ". Supported actions: list, get, create, update, accept, rebase, changes") [])
    ∧ (∀ (be : Backend) (args : ManageDeployTokensArgs),
      args.action ≠ "list" → args.action ≠ "get" → args.action ≠ "create" →
      args.action ≠ "delete" →
      (manageDeployTokensHandler be args).calls = []
        ∧ (((args.scope.type = "project" ∧ args.scope.projectPath ≠ "")
            ∨ (args.scope.type = "group" ∧ args.scope.groupID ≠ "")) →
          manageDeployTokensHandler be args
            = toolResultError ("unsupported action: " ++ args.action) [])) := by
  constructor
  · intro be args h1 h2 h3 h4 h5 h6 h7
    unfold mergeRequestManagementHandler
    split <;> simp_all
  · intro be args h1 h2 h3 h4
    constructor
    · unfold manageDeployTokensHandler
      repeat' split <;> simp_all [toolResultError]
    · intro hscope
      rcases hscope with ⟨hty, hne⟩ | ⟨hty, hne⟩ <;>
        · unfold manageDeployTokensHandler
          repeat' split <;> simp_all

/-- Witness for C1 as amended, at an unknown action with a valid
project scope and at the merge-request dispatcher. -/
theorem unsupported_action_rejection_witness :
    mergeRequestManagementHandler emptyBackend { listArgs0 with action := "explode" }
        = toolResultError ("unsupported action: explode"
            ++ ". Supported actions: list, get, create, update, accept, rebase, changes") []
      ∧ manageDeployTokensHandler emptyBackend dtArgsUnknownOkScope
        = toolResultError "unsupported action: explode" [] :=
  ⟨unsupported_action_rejection.1 emptyBackend { listArgs0 with action := "explode" }
      (by decide) (by decide) (by decide) (by decide) (by decide) (by decide) (by decide),
    (unsupported_action_rejection.2 emptyBackend dtArgsUnknownOkScope
      (by decide) (by decide) (by decide) (by decide)).2 (Or.inl (by decide))⟩

/-- C2 counterexample: with only the create title omitted, the error
message of the manage_merge_request create action also names
source_branch and target_branch, fields the request did supply — the
message does not name exactly the one omitted field. -/
theorem missing_title_message_counterexample :
    (mergeRequestManagementHandler emptyBackend createArgsNoTitle).text
        = "source_branch, target_branch, and title are required for create action"
      ∧ strInfix "source_branch" (mergeRequestManagementHandler emptyBackend createArgsNoTitle).text
          = true
      ∧ createArgsNoTitle.createOptions.sourceBranch ≠ ""
      ∧ createArgsNoTitle.createOptions.targetBranch ≠ ""
      ∧ createArgsNoTitle.createOptions.title = ""
      ∧ (mergeRequestManagementHandler emptyBackend createArgsNoTitle).calls = [] := by
  decide

/-- C2 as amended: omitting a conditionally required field yields an
error text that names the field and no Backend Client call is made; the
manage_merge_request create action reports one combined message naming
all three of its required fields. -/
theorem missing_field_rejection :
    (∀ (be : Backend) (args : MergeRequestManagementArgs),
      (args.action = "get" ∨ args.action = "update" ∨ args.action = "accept"
        ∨ args.action = "rebase" ∨ args.action = "changes") →
      args.mrIID = "" →
      mergeRequestManagementHandler be args
        = toolResultError ("mr_iid is required for " ++ args.action ++ " action") [])
    ∧ (∀ (be : Backend) (args : MergeRequestManagementArgs),
      args.action = "create" →
      (args.createOptions.sourceBranch = "" ∨ args.createOptions.targetBranch = ""
        ∨ args.createOptions.title = "") →
      mergeRequestManagementHandler be args
        = toolResultError
            "source_branch, target_branch, and title are required for create action" [])
    ∧ (∀ (be : Backend) (args : ManageDeployTokensArgs),
      (args.action = "get" ∨ args.action = "delete") → args.tokenID = none →
      ((args.scope.type = "project" ∧ args.scope.projectPath ≠ "")
        ∨ (args.scope.type = "group" ∧ args.scope.groupID ≠ "")) →
      manageDeployTokensHandler be args
        = toolResultError "token_id is required for get/delete actions" []) := by
  refine ⟨?_, ?_, ?_⟩
  · intro be args hact hiid
    rcases hact with h | h | h | h | h <;> simp [mergeRequestManagementHandler, h, hiid]
  · intro be args hact hmiss
    rcases hmiss with h | h | h <;> simp [mergeRequestManagementHandler, hact, h]
  · intro be args hact htok hscope
    rcases hscope with ⟨hty, hne⟩ | ⟨hty, hne⟩ <;> rcases hact with h | h <;>
      simp [manageDeployTokensHandler, hty, hne, htok, h]

/-- Witness for C2 as amended, at a get request without mr_iid, a create
request without a title, and a deploy-token get request without a
token_id. -/
theorem missing_field_rejection_witness :
    mergeRequestManagementHandler emptyBackend { listArgs0 with action := "get" }
        = toolResultError ("mr_iid is required for " ++ "get" ++ " action") []
      ∧ mergeRequestManagementHandler emptyBackend createArgsNoTitle
        = toolResultError
            "source_branch, target_branch, and title are required for create action" []
      ∧ manageDeployTokensHandler emptyBackend dtArgsGetNoToken
        = toolResultError "token_id is required for get/delete actions" [] :=
  ⟨missing_field_rejection.1 emptyBackend { listArgs0 with action := "get" }
      (Or.inl rfl) rfl,
    missing_field_rejection.2.1 emptyBackend createArgsNoTitle rfl
      (Or.inr (Or.inr rfl)),
    missing_field_rejection.2.2 emptyBackend dtArgsGetNoToken (Or.inl rfl) rfl
      (Or.inl (by decide))⟩

/-- C3 as a code defect: the request with action update and
update_options.state_event = "archive" (outside the enum declared by
the struct tag oneof=close reopen) is not rejected; the dispatcher
forwards it and the Backend Client is called with the out-of-enum
value, returning a successful result. -/
theorem stateEvent_archive_reaches_backend :
    (mergeRequestManagementHandler beUpdateOk updateArgsArchive).calls
        = [BackendCall.updateMergeRequest "group/proj" 42
            { title := none, description := none, targetBranch := none
              stateEvent := some "archive", assigneeID := none, milestoneID := none
              removeSourceBranch := none, squash := none, discussionLocked := none }]
      ∧ (mergeRequestManagementHandler beUpdateOk updateArgsArchive).isError = false
      ∧ (mergeRequestManagementHandler beUpdateOk updateArgsArchive).goErr = none := by
  decide

/-- Helper: a concatenation whose right part is non-empty is non-empty. -/
theorem append_ne_empty_right (a b : String) (hb : b ≠ "") : a ++ b ≠ "" := by
  intro h
  apply hb
  have hd := congrArg String.data h
  rw [String.data_append] at hd
  exact String.ext (List.append_eq_nil.mp hd).2

/-- Helper: the defaulted list state is never the empty string. -/
theorem mrListState_ne_empty (args : MergeRequestManagementArgs) :
    mrListState args ≠ "" := by
  by_cases hc : args.listOptions.state = "" <;> simp [mrListState, hc]

/-- C4 counterexample: a manage_merge_request list call whose backend
returns zero merge requests produces the empty string, with no
"no results" sentence. -/
theorem empty_mr_list_renders_empty_string :
    (mergeRequestManagementHandler beEmptyLists listArgs0).text = ""
      ∧ (mergeRequestManagementHandler beEmptyLists listArgs0).isError = false := by
  decide

/-- C4 as amended: the merge-request pipelines list renders an explicit
non-empty "no results" sentence on an empty collection, but the
manage_merge_request list action renders an empty collection as the
empty string. -/
theorem empty_collection_rendering :
    (∀ (be : Backend) (args : GetMRPipelinesArgs) (iid : Int),
      goAtoi args.mrIID = some iid →
      be.listMergeRequestPipelines args.projectPath iid = .ok [] →
      getMRPipelinesHandler be args
          = toolResultText
              ("Pipelines for Merge Request !" ++ toString iid ++ ":\n\n"
                ++ "No pipelines found for this merge request.\n")
              [BackendCall.listMergeRequestPipelines args.projectPath iid]
        ∧ (getMRPipelinesHandler be args).text ≠ "")
    ∧ (∀ (be : Backend) (args : MergeRequestManagementArgs),
      args.action = "list" →
      be.listProjectMergeRequests args.projectPath (mrListState args) 100 = .ok [] →
      mergeRequestManagementHandler be args
        = toolResultText ""
            [BackendCall.listProjectMergeRequests args.projectPath (mrListState args) 100]) := by
  constructor
  · intro be args iid hiid hok
    have hmain : getMRPipelinesHandler be args
        = toolResultText
            ("Pipelines for Merge Request !" ++ toString iid ++ ":\n\n"
              ++ "No pipelines found for this merge request.\n")
            [BackendCall.listMergeRequestPipelines args.projectPath iid] := by
      simp [getMRPipelinesHandler, hiid, hok, String.join, String.append_empty]
    refine ⟨hmain, ?_⟩
    rw [hmain]
    exact append_ne_empty_right _ _ (by decide)
  · intro be args hact hok
    have hne := mrListState_ne_empty args
    simp [mergeRequestManagementHandler, hact, listMergeRequestsHandler, hne, hok,
      String.join]

/-- Witness for C4 as amended, at concrete requests against a backend
returning empty collections. -/
theorem empty_collection_rendering_witness :
    (getMRPipelinesHandler beEmptyLists { projectPath := "group/proj", mrIID := "7" }
        = toolResultText
            ("Pipelines for Merge Request !" ++ toString (7 : Int) ++ ":\n\n"
              ++ "No pipelines found for this merge request.\n")
            [BackendCall.listMergeRequestPipelines "group/proj" 7]
      ∧ (getMRPipelinesHandler beEmptyLists { projectPath := "group/proj", mrIID := "7" }).text
          ≠ "")
      ∧ mergeRequestManagementHandler beEmptyLists listArgs0
        = toolResultText ""
            [BackendCall.listProjectMergeRequests "group/proj" "all" 100] :=
  ⟨empty_collection_rendering.1 beEmptyLists { projectPath := "group/proj", mrIID := "7" } 7
      (by decide) rfl,
    empty_collection_rendering.2 beEmptyLists listArgs0 rfl rfl⟩

/-- C5: in a git-flow finish handler whose first merge-request creation
succeeds and whose second fails, the output text reports the first
success then the second failure, the response is a normal tool result
(nil Go error, not an error result), and the Backend Client trace holds
no compensating call after the two creations. -/
theorem finish_partial_failure_report :
    (∀ (be : Backend) (args : FinishReleaseArgs) (mr : MergeRequest) (m : String),
      args.deleteBranch = false →
      be.getBranch args.projectPath ("release/" ++ args.releaseVersion) = .ok () →
      be.createMergeRequest args.projectPath
          (releaseDevelopMROpts args.releaseVersion
            (if args.developmentBranch = "" then "develop" else args.developmentBranch)
            ("release/" ++ args.releaseVersion)) = .ok mr →
      be.createMergeRequest args.projectPath
          (releaseMasterMROpts args.releaseVersion
            (if args.productionBranch = "" then "master" else args.productionBranch)
            ("release/" ++ args.releaseVersion)) = .error m →
      finishReleaseHandler be args
        = toolResultText
            ("🚀 Finishing release " ++ args.releaseVersion ++ "\n\n"
              ++ ("✅ Created MR to "
                    ++ (if args.developmentBranch = "" then "develop" else args.developmentBranch)
                    ++ ": !" ++ toString mr.iid ++ "\n" ++ "   URL: " ++ mr.webURL ++ "\n")
              ++ ("❌ Failed to create MR to "
                    ++ (if args.productionBranch = "" then "master" else args.productionBranch)
                    ++ ": " ++ m ++ "\n")
              ++ "\n📋 Release " ++ args.releaseVersion ++ " is ready for review and merge!\n")
            [BackendCall.getBranch args.projectPath ("release/" ++ args.releaseVersion),
              BackendCall.createMergeRequest args.projectPath
                (releaseDevelopMROpts args.releaseVersion
                  (if args.developmentBranch = "" then "develop" else args.developmentBranch)
                  ("release/" ++ args.releaseVersion)),
              BackendCall.createMergeRequest args.projectPath
                (releaseMasterMROpts args.releaseVersion
                  (if args.productionBranch = "" then "master" else args.productionBranch)
                  ("release/" ++ args.releaseVersion))])
    ∧ (∀ (be : Backend) (args : FinishHotfixArgs) (mr : MergeRequest) (m : String),
      args.deleteBranch = false →
      be.getBranch args.projectPath ("hotfix/" ++ args.hotfixVersion) = .ok () →
      be.createMergeRequest args.projectPath
          (hotfixMasterMROpts args.hotfixVersion
            (if args.productionBranch = "" then "master" else args.productionBranch)
            ("hotfix/" ++ args.hotfixVersion)) = .ok mr →
      be.createMergeRequest args.projectPath
          (hotfixDevelopMROpts args.hotfixVersion
            (if args.developmentBranch = "" then "develop" else args.developmentBranch)
            ("hotfix/" ++ args.hotfixVersion)) = .error m →
      finishHotfixHandler be args
        = toolResultText
            ("🚨 Finishing hotfix " ++ args.hotfixVersion ++ "\n\n"
              ++ ("✅ Created MR to "
                    ++ (if args.productionBranch = "" then "master" else args.productionBranch)
                    ++ ": !" ++ toString mr.iid ++ "\n" ++ "   URL: " ++ mr.webURL ++ "\n")
              ++ ("❌ Failed to create MR to "
                    ++ (if args.developmentBranch = "" then "develop" else args.developmentBranch)
                    ++ ": " ++ m ++ "\n")
              ++ "\n🚨 Hotfix " ++ args.hotfixVersion
              ++ " is ready for urgent review and deployment!\n")
            [BackendCall.getBranch args.projectPath ("hotfix/" ++ args.hotfixVersion),
              BackendCall.createMergeRequest args.projectPath
                (hotfixMasterMROpts args.hotfixVersion
                  (if args.productionBranch = "" then "master" else args.productionBranch)
                  ("hotfix/" ++ args.hotfixVersion)),
              BackendCall.createMergeRequest args.projectPath
                (hotfixDevelopMROpts args.hotfixVersion
                  (if args.developmentBranch = "" then "develop" else args.developmentBranch)
                  ("hotfix/" ++ args.hotfixVersion))]) := by
  constructor
  · intro be args mr m hdel hgb hdev hmaster
    simp [finishReleaseHandler, hdel, hgb, hdev, hmaster, fmtFlowMRAttempt,
      String.append_assoc, String.append_empty]
  · intro be args mr m hdel hgb hmaster hdev
    simp [finishHotfixHandler, hdel, hgb, hdev, hmaster, fmtFlowMRAttempt,
      String.append_assoc, String.append_empty]

/-- Witness for C5 at concrete finish requests against stub backends
where exactly the first creation succeeds. -/
theorem finish_partial_failure_report_witness :
    finishReleaseHandler beDevOk finRelArgs0
        = toolResultText
            ("🚀 Finishing release " ++ "1.2.0" ++ "\n\n"
              ++ ("✅ Created MR to " ++ "develop" ++ ": !" ++ toString sampleMR.iid ++ "\n"
                  ++ "   URL: " ++ sampleMR.webURL ++ "\n")
              ++ ("❌ Failed to create MR to " ++ "master" ++ ": " ++ "boom" ++ "\n")
              ++ "\n📋 Release " ++ "1.2.0" ++ " is ready for review and merge!\n")
            [BackendCall.getBranch "group/proj" ("release/" ++ "1.2.0"),
              BackendCall.createMergeRequest "group/proj"
                (releaseDevelopMROpts "1.2.0" "develop" ("release/" ++ "1.2.0")),
              BackendCall.createMergeRequest "group/proj"
                (releaseMasterMROpts "1.2.0" "master" ("release/" ++ "1.2.0"))]
      ∧ finishHotfixHandler beMasterOk finHotArgs0
        = toolResultText
            ("🚨 Finishing hotfix " ++ "1.2.1" ++ "\n\n"
              ++ ("✅ Created MR to " ++ "master" ++ ": !" ++ toString sampleMR.iid ++ "\n"
                  ++ "   URL: " ++ sampleMR.webURL ++ "\n")
              ++ ("❌ Failed to create MR to " ++ "develop" ++ ": " ++ "boom" ++ "\n")
              ++ "\n🚨 Hotfix " ++ "1.2.1" ++ " is ready for urgent review and deployment!\n")
            [BackendCall.getBranch "group/proj" ("hotfix/" ++ "1.2.1"),
              BackendCall.createMergeRequest "group/proj"
                (hotfixMasterMROpts "1.2.1" "master" ("hotfix/" ++ "1.2.1")),
              BackendCall.createMergeRequest "group/proj"
                (hotfixDevelopMROpts "1.2.1" "develop" ("hotfix/" ++ "1.2.1"))] :=
  ⟨finish_partial_failure_report.1 beDevOk finRelArgs0 sampleMR "boom" rfl rfl rfl rfl,
    finish_partial_failure_report.2 beMasterOk finHotArgs0 sampleMR "boom" rfl rfl rfl rfl⟩

/-- C6: with the optional field absent the handlers issue the same
Backend Client call and produce the same result as with the field
explicitly set to its documented default: the list state defaults to
all, the ref of the file reader and of the commit lister defaults to
develop, and the until bound defaults to the current date (passed in as
`now`). -/
theorem absent_field_defaults :
    (∀ (be : Backend) (args : MergeRequestManagementArgs),
      args.action = "list" →
      mergeRequestManagementHandler be { args with listOptions := { state := "" } }
        = mergeRequestManagementHandler be { args with listOptions := { state := "all" } })
    ∧ (∀ (be : Backend) (projectPath filePath : String),
      getFileContent be projectPath filePath ""
        = getFileContent be projectPath filePath "develop")
    ∧ (∀ (be : Backend) (now projectPath since ref : String),
      listCommits be now projectPath since "" ref
        = listCommits be now projectPath since now ref)
    ∧ (∀ (be : Backend) (now projectPath since untilArg : String),
      listCommits be now projectPath since untilArg ""
        = listCommits be now projectPath since untilArg "develop") := by
  refine ⟨?_, ?_, ?_, ?_⟩
  · intro be args h
    simp [mergeRequestManagementHandler, h, mrListState]
  · intro be p f
    simp [getFileContent]
  · intro be now p s r
    simp [listCommits]
  · intro be now p s u
    simp [listCommits]

/-- Witness for C6 at a concrete list request, file read and commit
listing. -/
theorem absent_field_defaults_witness :
    mergeRequestManagementHandler emptyBackend { listArgs0 with listOptions := { state := "" } }
        = mergeRequestManagementHandler emptyBackend
            { listArgs0 with listOptions := { state := "all" } }
      ∧ getFileContent emptyBackend "group/proj" "README.md" ""
        = getFileContent emptyBackend "group/proj" "README.md" "develop"
      ∧ listCommits emptyBackend "2024-06-01" "group/proj" "2024-01-01" "" "main"
        = listCommits emptyBackend "2024-06-01" "group/proj" "2024-01-01" "2024-06-01" "main"
      ∧ listCommits emptyBackend "2024-06-01" "group/proj" "2024-01-01" "2024-05-01" ""
        = listCommits emptyBackend "2024-06-01" "group/proj" "2024-01-01" "2024-05-01" "develop" :=
  ⟨absent_field_defaults.1 emptyBackend listArgs0 rfl,
    absent_field_defaults.2.1 emptyBackend "group/proj" "README.md",
    absent_field_defaults.2.2.1 emptyBackend "2024-06-01" "group/proj" "2024-01-01" "main",
    absent_field_defaults.2.2.2 emptyBackend "2024-06-01" "group/proj" "2024-01-01" "2024-05-01"⟩

/-- Helper: the merge-request dispatcher reads only the fields kept by
`selectedMRView`. -/
theorem mr_handler_reads_selected (be : Backend) (args : MergeRequestManagementArgs) :
    mergeRequestManagementHandler be args
      = mergeRequestManagementHandler be (selectedMRView args) := by
  unfold selectedMRView
  by_cases h1 : args.action = "list"
  · simp [mergeRequestManagementHandler, h1, mrListState]
  · by_cases h2 : args.action = "get"
    · simp [mergeRequestManagementHandler, h2]
    · by_cases h3 : args.action = "create"
      · simp [mergeRequestManagementHandler, h3]
      · by_cases h4 : args.action = "update"
        · simp [mergeRequestManagementHandler, h4]
        · by_cases h5 : args.action = "accept"
          · simp [mergeRequestManagementHandler, h5]
          · by_cases h6 : args.action = "rebase"
            · simp [mergeRequestManagementHandler, h6]
            · by_cases h7 : args.action = "changes"
              · simp [mergeRequestManagementHandler, h7]
              · simp [mergeRequestManagementHandler, h1, h2, h3, h4, h5, h6, h7]

/-- Helper: the deploy-token dispatcher reads only the fields kept by
`selectedDTView`. -/
theorem dt_handler_reads_selected (be : Backend) (args : ManageDeployTokensArgs) :
    manageDeployTokensHandler be args
      = manageDeployTokensHandler be (selectedDTView args) := by
  unfold selectedDTView
  by_cases h1 : args.action = "list"
  · simp [manageDeployTokensHandler, handleListDeployTokens, h1]
  · by_cases h2 : args.action = "get"
    · simp [manageDeployTokensHandler, handleGetDeployToken, h2]
    · by_cases h3 : args.action = "create"
      · simp [manageDeployTokensHandler, handleCreateDeployToken, h3]
      · by_cases h4 : args.action = "delete"
        · simp [manageDeployTokensHandler, handleDeleteDeployToken, h4]
        · simp [manageDeployTokensHandler, h1, h2, h3, h4]

/-- C7: with the action fixed, the contents of option blocks belonging
to other actions never influence the response — two requests with the
same selected-block view produce the same Backend Client calls and the
same response. -/
theorem option_block_noninterference :
    (∀ (be : Backend) (a1 a2 : MergeRequestManagementArgs),
      selectedMRView a1 = selectedMRView a2 →
      mergeRequestManagementHandler be a1 = mergeRequestManagementHandler be a2)
    ∧ (∀ (be : Backend) (a1 a2 : ManageDeployTokensArgs),
      selectedDTView a1 = selectedDTView a2 →
      manageDeployTokensHandler be a1 = manageDeployTokensHandler be a2) := by
  constructor
  · intro be a1 a2 h
    rw [mr_handler_reads_selected be a1, h, ← mr_handler_reads_selected be a2]
  · intro be a1 a2 h
    rw [dt_handler_reads_selected be a1, h, ← dt_handler_reads_selected be a2]

/-- Witness for C7 at two list requests differing only in the create
option block or in the non-selected token and create blocks. -/
theorem option_block_noninterference_witness :
    mergeRequestManagementHandler emptyBackend listArgs0
        = mergeRequestManagementHandler emptyBackend
            { listArgs0 with
              createOptions :=
                { sourceBranch := "a", targetBranch := "b", title := "c", description := "d" } }
      ∧ manageDeployTokensHandler emptyBackend
            { action := "list"
              scope := { type := "project", projectPath := "group/proj", groupID := "" }
              tokenID := none, createOpts := none }
        = manageDeployTokensHandler emptyBackend
            { action := "list"
              scope := { type := "project", projectPath := "group/proj", groupID := "" }
              tokenID := some { id := "9" }
              createOpts := some
                { name := "n", username := "", expiresAt := "", scopes := ["read_repository"] } } :=
  ⟨option_block_noninterference.1 emptyBackend listArgs0
      { listArgs0 with
        createOptions :=
          { sourceBranch := "a", targetBranch := "b", title := "c", description := "d" } }
      (by decide),
    option_block_noninterference.2 emptyBackend
      { action := "list"
        scope := { type := "project", projectPath := "group/proj", groupID := "" }
        tokenID := none, createOpts := none }
      { action := "list"
        scope := { type := "project", projectPath := "group/proj", groupID := "" }
        tokenID := some { id := "9" }
        createOpts := some
          { name := "n", username := "", expiresAt := "", scopes := ["read_repository"] } }
      (by decide)⟩

/-- C8: a Backend Client failure inside a consolidated handler is
returned as a normal tool result (nil Go error) whose error text names
the failed operation and carries the underlying message verbatim. -/
theorem backend_failure_as_error_text :
    (∀ (be : Backend) (args : UpdateMergeRequestArgs) (iid : Int) (m : String),
      goAtoi args.mrIID = some iid →
      be.updateMergeRequest args.projectPath iid (buildUpdateMROpts args) = .error m →
      updateMergeRequestHandler be args
        = toolResultError ("failed to update merge request: " ++ m)
            [BackendCall.updateMergeRequest args.projectPath iid (buildUpdateMROpts args)])
    ∧ (∀ (be : Backend) (args : ManageDeployTokensArgs) (m : String),
      args.scope.type = "project" →
      be.listProjectDeployTokens args.scope.projectPath = .error m →
      handleListDeployTokens be args
        = toolResultError ("failed to list project deploy tokens: " ++ m)
            [BackendCall.listProjectDeployTokens args.scope.projectPath])
    ∧ (∀ (be : Backend) (args : ManageDeployTokensArgs) (m : String),
      args.scope.type ≠ "project" →
      be.listGroupDeployTokens args.scope.groupID = .error m →
      handleListDeployTokens be args
        = toolResultError ("failed to list group deploy tokens: " ++ m)
            [BackendCall.listGroupDeployTokens args.scope.groupID]) := by
  refine ⟨?_, ?_, ?_⟩
  · intro be args iid m hiid herr
    simp [updateMergeRequestHandler, hiid, herr]
  · intro be args m hty herr
    simp [handleListDeployTokens, hty, herr]
  · intro be args m hty herr
    simp [handleListDeployTokens, hty, herr]

/-- Witness for C8 against the spy backend, whose every method fails
with the message "unreachable". -/
theorem backend_failure_as_error_text_witness :
    updateMergeRequestHandler emptyBackend
        { projectPath := "group/proj", mrIID := "42", title := "", description := ""
          targetBranch := "", stateEvent := "", assigneeID := 0, milestoneID := 0
          labels := "", removeSourceBranch := false, squash := false
          discussionLocked := false }
        = toolResultError ("failed to update merge request: " ++ "unreachable")
            [BackendCall.updateMergeRequest "group/proj" 42
              (buildUpdateMROpts
                { projectPath := "group/proj", mrIID := "42", title := "", description := ""
                  targetBranch := "", stateEvent := "", assigneeID := 0, milestoneID := 0
                  labels := "", removeSourceBranch := false, squash := false
                  discussionLocked := false })]
      ∧ handleListDeployTokens emptyBackend dtArgsUnknownOkScope
        = toolResultError ("failed to list project deploy tokens: " ++ "unreachable")
            [BackendCall.listProjectDeployTokens "group/proj"] :=
  ⟨backend_failure_as_error_text.1 emptyBackend
      { projectPath := "group/proj", mrIID := "42", title := "", description := ""
        targetBranch := "", stateEvent := "", assigneeID := 0, milestoneID := 0
        labels := "", removeSourceBranch := false, squash := false
        discussionLocked := false } 42 "unreachable" (by decide) rfl,
    backend_failure_as_error_text.2.1 emptyBackend dtArgsUnknownOkScope "unreachable"
      rfl rfl⟩

/-- Helper: once the handle is cached, later calls return it unchanged
and never run the constructor again. -/
theorem runGitlabClientCalls_cached (env : GitlabEnv) (c : Client) (n : Nat) :
    runGitlabClientCalls env n (some c) = (List.replicate n (.ok c), 0) := by
  induction n with
  | zero => simp [runGitlabClientCalls]
  | succ n ih => simp [runGitlabClientCalls, gitlabClientCall, ih, List.replicate_succ]

/-- C9: with the configuration present, any finite sequence of calls to
the once-guarded `util.GitlabClient` (an arbitrary interleaving of
concurrent callers, each call atomic under the sync.OnceValue contract)
returns the same single client handle every time and runs the
constructor at most once. -/
theorem gitlab_client_constructed_once (env : GitlabEnv) (n : Nat)
    (htok : env.token ≠ "") (hurl : env.url ≠ "") :
    (∀ r ∈ (runGitlabClientCalls env n none).1,
        r = .ok { token := env.token, baseURL := env.url })
      ∧ (runGitlabClientCalls env n none).2 ≤ 1 := by
  cases n with
  | zero => simp [runGitlabClientCalls]
  | succ n =>
    have hmk : mkGitlabClient env = .ok { token := env.token, baseURL := env.url } := by
      simp [mkGitlabClient, htok, hurl]
    have hrun : runGitlabClientCalls env (n + 1) none
        = (.ok { token := env.token, baseURL := env.url }
            :: List.replicate n (.ok { token := env.token, baseURL := env.url }), 1) := by
      simp [runGitlabClientCalls, gitlabClientCall, hmk, runGitlabClientCalls_cached]
    rw [hrun]
    refine ⟨?_, le_refl 1⟩
    intro r hr
    rcases List.mem_cons.mp hr with h | h
    · exact h
    · exact List.eq_of_mem_replicate h

/-- Witness for C9 at a concrete environment and three calls. -/
theorem gitlab_client_constructed_once_witness :
    (∀ r ∈ (runGitlabClientCalls { token := "glpat-x", url := "https://gitlab.example.com" }
        3 none).1,
        r = .ok { token := "glpat-x", baseURL := "https://gitlab.example.com" })
      ∧ (runGitlabClientCalls { token := "glpat-x", url := "https://gitlab.example.com" }
          3 none).2 ≤ 1 :=
  gitlab_client_constructed_once
    { token := "glpat-x", url := "https://gitlab.example.com" } 3 (by decide) (by decide)

end GitlabMcp
